import Mathlib

/-!
Shallow embedding of the IoT-Device-Metrics-Reporter repository
(`src/server/app.py` and `src/agent/agent.py`) and proofs of the
specification's claims about it.

JSON values are modelled by `JVal`; Python's `str()` / `int()` coercions by
`pyStr` / `pyInt`; the in-memory `DEVICES` dict by an insertion-ordered
association list `Store`.  Operations that can raise an uncaught Python
exception return `Except Unit _`.
-/

/-- A JSON value as produced by `request.get_json` (integers suffice for the
numeric values exercised by the server's coercions). -/
inductive JVal where
  | jnull : JVal
  | jbool : Bool → JVal
  | jint : Int → JVal
  | jstr : String → JVal
  | jarr : List JVal → JVal
  | jobj : List (String × JVal) → JVal

/-- Drop leading whitespace (helper for Python's `str.strip()`). -/
def dropWS : List Char → List Char
  | [] => []
  | c :: rest => if c.isWhitespace then dropWS rest else c :: rest

/-- Python's `str.strip()`: drop whitespace from both ends. -/
def pyStrip (s : String) : String :=
  ⟨(dropWS ((dropWS s.toList).reverse)).reverse⟩

/-- Python's `int(str)` on a string: strip whitespace, optional sign, digits. -/
def parseIntStr (s : String) : Except Unit Int :=
  let cs := (pyStrip s).toList
  let signed : Int × List Char :=
    match cs with
    | '-' :: rest => (-1, rest)
    | '+' :: rest => (1, rest)
    | _ => (1, cs)
  if signed.2 ≠ [] ∧ signed.2.all Char.isDigit then
    .ok (signed.1 * (signed.2.foldl (fun acc c => acc * 10 + ((c.toNat - '0'.toNat : Nat) : Int)) 0))
  else .error ()

/-- Python's `int(v)` coercion on a JSON value; `.error` models the raised
`ValueError`/`TypeError`. -/
def pyInt : JVal → Except Unit Int
  | .jint n => .ok n
  | .jbool b => .ok (if b then 1 else 0)
  | .jstr s => parseIntStr s
  | _ => .error ()

mutual

/-- Python's `repr` of a parsed-JSON value (string escaping not modelled;
no claim exercises it). -/
def pyRepr : JVal → String
  | .jnull => "None"
  | .jbool true => "True"
  | .jbool false => "False"
  | .jint n => toString n
  | .jstr s => "'" ++ s ++ "'"
  | .jarr xs => "[" ++ pyReprL xs ++ "]"
  | .jobj kvs => "\x7b" ++ pyReprKV kvs ++ "\x7d"

def pyReprL : List JVal → String
  | [] => ""
  | [x] => pyRepr x
  | x :: y :: xs => pyRepr x ++ ", " ++ pyReprL (y :: xs)

def pyReprKV : List (String × JVal) → String
  | [] => ""
  | [kv] => "'" ++ kv.1 ++ "': " ++ pyRepr kv.2
  | kv :: kv2 :: xs => "'" ++ kv.1 ++ "': " ++ pyRepr kv.2 ++ ", " ++ pyReprKV (kv2 :: xs)

end

/-- Python's `str(v)` coercion: identity on strings, `repr` otherwise. -/
def pyStr : JVal → String
  | .jstr s => s
  | v => pyRepr v

/-- The constant `REPORT_INTERVAL_DEFAULT = 10` (`src/server/app.py`). -/
def REPORT_INTERVAL_DEFAULT : Int := 10

/-- Embeds `mark_online_state` (`src/server/app.py`):
`(now - last_seen) <= (2 * max(interval, REPORT_INTERVAL_DEFAULT))`. -/
def mark_online_state (now last_seen interval : Int) : Bool :=
  (now - last_seen) ≤ (2 * max interval REPORT_INTERVAL_DEFAULT)

/-- Embeds `human_ago` (`src/server/app.py`).  Python `//` and `%` are floor
division and modulo, i.e. `Int.fdiv` / `Int.emod`. -/
def human_ago (seconds : Int) : String :=
  if seconds < 60 then toString seconds ++ "s ago"
  else
    let mins := Int.fdiv seconds 60
    if mins < 60 then toString mins ++ "m ago"
    else
      let hrs := Int.fdiv mins 60
      if hrs < 24 then toString hrs ++ "h " ++ toString (Int.emod mins 60) ++ "m ago"
      else
        let days := Int.fdiv hrs 24
        toString days ++ "d ago"

/-- One entry of the `DEVICES` dict:
`{"metrics": payload, "last_seen": ts, "interval": interval}`. -/
structure DevRec where
  metrics : JVal
  last_seen : Int
  interval : Int

/-- The `DEVICES` dict, as an insertion-ordered association list. -/
abbrev Store := List (String × DevRec)

/-- Python dict assignment `DEVICES[k] = v`: update in place if the key is
present, else append. -/
def Store.set (s : Store) (k : String) (v : DevRec) : Store :=
  if s.any (fun p => p.1 == k) then
    s.map (fun p => if p.1 == k then (k, v) else p)
  else s ++ [(k, v)]

/-- Dict lookup `DEVICES.get(k)`. -/
def Store.get (s : Store) (k : String) : Option DevRec :=
  (s.find? (fun p => p.1 == k)).map (fun p => p.2)

/-- Substring test on lists of characters (Python `k in s` for strings). -/
def containsSub (pat l : List Char) : Bool :=
  l.tails.any (fun t => pat.isPrefixOf t)

/-- Python `k in payload` for an arbitrary JSON payload: key membership for
dicts, element membership for lists, substring for strings, `TypeError`
otherwise. -/
def keyIn (k : String) : JVal → Except Unit Bool
  | .jobj kvs => .ok (kvs.any (fun kv => kv.1 == k))
  | .jarr xs => .ok (xs.any (fun x => match x with | .jstr s => s == k | _ => false))
  | .jstr s => .ok (containsSub k.toList s.toList)
  | _ => .error ()

/-- The `for k in (...)` schema-check loop of `metrics`: returns the first
required key that is absent, `none` if all are present. -/
def checkKeys : List String → JVal → Except Unit (Option String)
  | [], _ => .ok none
  | k :: rest, p => do
    let b ← keyIn k p
    if b then checkKeys rest p else .ok (some k)

/-- The `payload[k]` subscript: `KeyError`/`TypeError` modelled as `.error`. -/
def jIndex (p : JVal) (k : String) : Except Unit JVal :=
  match p with
  | .jobj kvs =>
    match kvs.find? (fun kv => kv.1 == k) with
    | some kv => .ok kv.2
    | none => .error ()
  | _ => .error ()

/-- The `payload.get(k, d)` method (`dict.get`); `AttributeError` on non-dicts. -/
def jGetD (p : JVal) (k : String) (d : JVal) : Except Unit JVal :=
  match p with
  | .jobj kvs => .ok (((kvs.find? (fun kv => kv.1 == k)).map (fun kv => kv.2)).getD d)
  | _ => .error ()

/-- Outcome of a POST to `/metrics`: HTTP 200 `ok`, HTTP 400 with an error
message, or an uncaught Python exception (HTTP 500). -/
inductive SubmitResult where
  | ok : SubmitResult
  | badRequest : String → SubmitResult
  | pyError : SubmitResult
deriving DecidableEq

/-- The required top-level keys checked by `metrics`. -/
def requiredKeys : List String := ["device_id", "ts", "system", "network"]

/-- The `metrics` POST handler (`src/server/app.py`), acting on the current
`DEVICES` store and a parsed JSON payload; returns the HTTP outcome and the
store after the call. -/
def metricsSubmit (store : Store) (payload : JVal) : SubmitResult × Store :=
  match checkKeys requiredKeys payload with
  | .error _ => (.pyError, store)
  | .ok (some k) => (.badRequest ("missing field: " ++ k), store)
  | .ok none =>
    match jIndex payload "device_id" with
    | .error _ => (.pyError, store)
    | .ok didv =>
      let device_id := pyStr didv
      match (jIndex payload "ts").bind pyInt with
      | .error _ => (.pyError, store)
      | .ok ts =>
        match (jGetD payload "interval" (.jint REPORT_INTERVAL_DEFAULT)).bind pyInt with
        | .error _ => (.pyError, store)
        | .ok interval =>
          (.ok, store.set device_id ⟨payload, ts, interval⟩)

/-- One flattened dashboard row (`build_rows` in `src/server/app.py`).
Fields read with `dict.get(k)` are `JVal.jnull` when absent (Python `None`). -/
structure Row where
  device_id : String
  online : Bool
  last_seen : Int
  last_seen_ago : String
  uptime_s : JVal
  cpu_pct : JVal
  mem_pct : JVal
  disk_pct : JVal
  loadavg : JVal
  iface : JVal
  ip : JVal
  mac : JVal
  rx_bytes : JVal
  tx_bytes : JVal
  rx_packets : JVal
  tx_packets : JVal

/-- Shorthand for `obj.get(k)` with Python's implicit `None` default. -/
def jGetN (p : JVal) (k : String) : Except Unit JVal :=
  jGetD p k .jnull

/-- The body of `build_rows` for a single stored device record. -/
def build_row (now : Int) (device_id : String) (rec : DevRec) : Except Unit Row := do
  let last_seen := rec.last_seen
  let interval := rec.interval
  let online := mark_online_state now last_seen interval
  let m := rec.metrics
  let sysm ← jGetD m "system" (.jobj [])
  let netm ← jGetD m "network" (.jobj [])
  let uptime ← jGetN sysm "uptime_s"
  let cpu ← jGetN sysm "cpu_pct"
  let mem ← jGetN sysm "mem_pct"
  let disk ← jGetN sysm "disk_pct"
  let load ← jGetN sysm "loadavg"
  let ifc ← jGetN netm "iface"
  let ip ← jGetN netm "ip"
  let mac ← jGetN netm "mac"
  let rb ← jGetN netm "rx_bytes"
  let tb ← jGetN netm "tx_bytes"
  let rp ← jGetN netm "rx_packets"
  let tp ← jGetN netm "tx_packets"
  pure { device_id := device_id, online := online, last_seen := last_seen,
         last_seen_ago := human_ago (max 0 (now - last_seen)),
         uptime_s := uptime, cpu_pct := cpu, mem_pct := mem, disk_pct := disk,
         loadavg := load, iface := ifc, ip := ip, mac := mac,
         rx_bytes := rb, tx_bytes := tb, rx_packets := rp, tx_packets := tp }

/-- Insert into a key-sorted association list (for `sorted(DEVICES.items())`). -/
def insertByKey (p : String × DevRec) : List (String × DevRec) → List (String × DevRec)
  | [] => [p]
  | q :: rest => if p.1 < q.1 then p :: q :: rest else q :: insertByKey p rest

/-- Embeds `sorted(DEVICES.items())` (keys are unique, so key order decides). -/
def sortByKey (s : Store) : List (String × DevRec) :=
  s.foldr insertByKey []

/-- Embeds `build_rows` (`src/server/app.py`): flatten all stored records, sorted by
device id, against the evaluation-time `now`. -/
def build_rows (store : Store) (now : Int) : Except Unit (List Row) :=
  (sortByKey store).mapM (fun p => build_row now p.1 p.2)

/-! ## Agent (`src/agent/agent.py`) -/

/-- Python's `round(x, 2)` on exact arithmetic (the float expression of `cpu_pct` is
modelled over `ℚ`). -/
def round2 (x : ℚ) : ℚ := (round (x * 100) : ℤ) / 100

/-- The arithmetic core of `cpu_pct`, given the two `/proc/stat` snapshots
`(total, idle_all)` that `_read_proc_stat` returns:
`td, idl = (t2 - t1), (i2 - i1); round((1 - idl / max(td, 1)) * 100.0, 2)`. -/
def cpu_pct_core (t1 i1 t2 i2 : ℤ) : ℚ :=
  let td : ℤ := t2 - t1
  let idl : ℤ := i2 - i1
  round2 ((1 - (idl : ℚ) / ((max td 1 : ℤ) : ℚ)) * 100)

/-- The spec's formula for `cpu_pct`, written from its words:
`round((1 − idle_delta/max(total_delta,1)) × 100, 2)` with
`idle_delta = i2 − i1` and `total_delta = t2 − t1`. -/
def cpu_pct_specFormula (t1 i1 t2 i2 : ℤ) : ℚ :=
  let idle_delta : ℤ := i2 - i1
  let total_delta : ℤ := t2 - t1
  round2 ((1 - (idle_delta : ℚ) / ((max total_delta 1 : ℤ) : ℚ)) * 100)

/-- The readable part of the filesystem the agent probes: path to contents,
`none` when opening the file raises. -/
def FS : Type := String → Option String

/-- Embeds `read(path, default)` (`src/agent/agent.py`): file contents stripped, or
the default on any exception. -/
def readFile (fs : FS) (path dflt : String) : String :=
  match fs path with
  | some c => pyStrip c
  | none => dflt

/-- Python `s.split()`: split on whitespace runs, dropping empty pieces. -/
def pySplit (s : String) : List String :=
  (s.split Char.isWhitespace).filter (fun w => w ≠ "")

/-- Embeds `default_iface()`: the token after `"dev"` in the default-route line;
`""` on a failed command, a missing `"dev"` token, or an out-of-range index
(all caught by the `except`). -/
def default_iface (routeOut : Option String) : String :=
  match routeOut with
  | none => ""
  | some out =>
    let parts := pySplit out
    if parts.contains "dev" then (parts.get? (parts.indexOf "dev" + 1)).getD ""
    else ""

/-- Embeds `ip_of(iface)`: fourth whitespace token of the `ip addr` output, up to the
first `/`; `""` when the interface is empty or anything fails. -/
def ip_of (addrOut : Option String) (iface : String) : String :=
  if iface = "" then ""
  else
    match addrOut with
    | none => ""
    | some out =>
      match (pySplit out).get? 3 with
      | some w => (w.splitOn "/").headD ""
      | none => ""

/-- Embeds `mac_of(iface)`: a `read` of the sysfs address file when the
interface is nonempty, `""` otherwise. -/
def mac_of (fs : FS) (iface : String) : String :=
  if iface ≠ "" then readFile fs ("/sys/class/net/" ++ iface ++ "/address") ""
  else ""

/-- Embeds `nic_stats(iface)`: `(0,0,0,0)` for an empty interface; otherwise
`int(read(path, "0"))` for each of the four counters — the `int` coercion is
NOT wrapped in a `try`, so `.error` models the `ValueError` it can raise. -/
def nic_stats (fs : FS) (iface : String) : Except Unit (Int × Int × Int × Int) :=
  if iface = "" then .ok (0, 0, 0, 0)
  else do
    let pre := "/sys/class/net/" ++ iface ++ "/statistics/"
    let rb ← parseIntStr (readFile fs (pre ++ "rx_bytes") "0")
    let tb ← parseIntStr (readFile fs (pre ++ "tx_bytes") "0")
    let rp ← parseIntStr (readFile fs (pre ++ "rx_packets") "0")
    let tp ← parseIntStr (readFile fs (pre ++ "tx_packets") "0")
    .ok (rb, tb, rp, tp)

/-- Classification of the initial `post_json` of one `while True` iteration of
`main` (`src/agent/agent.py`): success, an `HTTPError`/`URLError` (the retry
branch), or any other exception (the generic branch). -/
inductive InitOutcome where
  | ok : InitOutcome
  | httpErr : InitOutcome
  | otherErr : InitOutcome
deriving DecidableEq

/-- Observable actions of the agent loop: taking a sample (`collect`),
attempting a `post_json` of a payload, and a `time.sleep` of a duration. -/
inductive AgentAct (α : Type) where
  | sample : AgentAct α
  | send : α → AgentAct α
  | sleepFor : Nat → AgentAct α
deriving DecidableEq

/-- The `for back in (2, 4, 8)` retry loop: sleep the backoff, resend the same
payload, stop on the first success (`break`), continue on any exception.
`f k` tells whether the `k`-th retry succeeds. -/
def retryEpisode {α : Type} (p : α) (f : Nat → Bool) : List Nat → Nat → List (AgentAct α)
  | [], _ => []
  | b :: rest, k =>
    .sleepFor b :: .send p :: (if f k then [] else retryEpisode p f rest (k + 1))

/-- One iteration of the agent's `while True` loop, as the list of actions it
performs: collect a payload, send it, then sleep the interval (success or
generic error) or run the backoff-retry episode (`HTTPError`/`URLError`). -/
def cycle {α : Type} (p : α) (interval : Nat) (o : InitOutcome) (f : Nat → Bool) : List (AgentAct α) :=
  .sample :: .send p ::
    match o with
    | .ok => [.sleepFor interval]
    | .otherErr => [.sleepFor interval]
    | .httpErr => retryEpisode p f [2, 4, 8] 0

/-- The unrolled agent loop over finitely many iterations, each with its own
collected payload and send outcomes. -/
def loopTrace {α : Type} (interval : Nat) : List (α × InitOutcome × (Nat → Bool)) → List (AgentAct α)
  | [] => []
  | (p, o, f) :: rest => cycle p interval o f ++ loopTrace interval rest

/-! ## Concrete fixtures for counterexamples and witnesses -/

/-- Association-list lookup used to phrase hypotheses about object payloads. -/
def lookupKV (kvs : List (String × JVal)) (k : String) : Option JVal :=
  (kvs.find? (fun kv => kv.1 == k)).map (fun kv => kv.2)

/-- Key-presence test on an object payload. -/
def hasKey (kvs : List (String × JVal)) (k : String) : Bool :=
  kvs.any (fun kv => kv.1 == k)

/-- A payload with all four required keys whose `ts` is not `int`-coercible. -/
def payloadBadTs : JVal :=
  .jobj [("device_id", .jint 1), ("ts", .jstr "x"),
         ("system", .jobj []), ("network", .jobj [])]

/-- A payload with all four required keys, an `int`-coercible `ts`, and an
`interval` that is not `int`-coercible. -/
def payloadBadInterval : JVal :=
  .jobj [("device_id", .jint 1), ("ts", .jint 5), ("interval", .jstr "zz"),
         ("system", .jobj []), ("network", .jobj [])]

/-- A minimal fully valid payload (no `interval` key). -/
def kvsFull : List (String × JVal) :=
  [("device_id", .jint 7), ("ts", .jint 100),
   ("system", .jobj []), ("network", .jobj [])]

/-- A network snapshot with data in every field. -/
def netRich : JVal :=
  .jobj [("iface", .jstr "eth0"), ("ip", .jstr "10.0.0.5"), ("mac", .jstr "aa:bb"),
         ("rx_bytes", .jint 1), ("tx_bytes", .jint 2),
         ("rx_packets", .jint 3), ("tx_packets", .jint 4)]

/-- A stored payload for device `d1` whose network object is `netRich`. -/
def payloadOld : JVal :=
  .jobj [("device_id", .jstr "d1"), ("ts", .jint 100),
         ("system", .jobj []), ("network", netRich)]

/-- A store holding one record for `d1` with rich network data. -/
def storeD1 : Store := [("d1", ⟨payloadOld, 100, 10⟩)]

/-- A re-submission for `d1` that lacks the `network` key entirely. -/
def payloadNoNet : JVal :=
  .jobj [("device_id", .jstr "d1"), ("ts", .jint 200), ("system", .jobj [])]

/-- A re-submission for `d1` whose `network` object is present but empty. -/
def payloadEmptyNet : JVal :=
  .jobj [("device_id", .jstr "d1"), ("ts", .jint 200),
         ("system", .jobj []), ("network", .jobj [])]

/-- A filesystem in which `eth0`'s `rx_bytes` counter file holds non-numeric
content. -/
def fsBad : FS :=
  fun p => if p = "/sys/class/net/eth0/statistics/rx_bytes" then some "abc" else none

/-- A filesystem in which the only readable file holds a well-formed counter. -/
def fsGood : FS :=
  fun p => if p = "/sys/class/net/eth0/statistics/rx_bytes" then some "5" else none

/-! ## Helper lemmas -/

theorem Store.get_cons (p : String × DevRec) (l : Store) (k : String) :
    Store.get (p :: l) k = if p.1 == k then some p.2 else Store.get l k := by
  cases hpk : (p.1 == k) with
  | true => simp [Store.get, List.find?_cons_of_pos, hpk]
  | false => simp [Store.get, List.find?_cons_of_neg, hpk]

theorem Store.get_set (s : Store) (k : String) (v : DevRec) :
    (s.set k v).get k = some v := by
  induction s with
  | nil => simp [Store.set, Store.get_cons]
  | cons p rest ih =>
    cases hpk : (p.1 == k) with
    | true =>
      have hany : ((p :: rest).any (fun q => q.1 == k)) = true := by
        simp only [List.any_cons, hpk, Bool.true_or]
      simp only [Store.set, hany, if_true, List.map_cons, hpk, Store.get_cons]
      simp
    | false =>
      cases hany : (rest.any (fun q => q.1 == k)) with
      | true =>
        have hany2 : ((p :: rest).any (fun q => q.1 == k)) = true := by
          simp only [List.any_cons, hany, Bool.or_true]
        have ih' := ih
        simp only [Store.set, hany, if_true] at ih'
        simp only [Store.set, hany2, if_true, List.map_cons, hpk, Store.get_cons,
          Bool.false_eq_true, if_false]
        exact ih'
      | false =>
        have hany2 : ((p :: rest).any (fun q => q.1 == k)) = false := by
          simp only [List.any_cons, hany, hpk, Bool.or_false]
        have ih' := ih
        simp only [Store.set, hany, Bool.false_eq_true, if_false] at ih'
        simp only [Store.set, hany2, Bool.false_eq_true, if_false, List.cons_append,
          Store.get_cons, hpk]
        exact ih'

/-- C1: the online classification is exactly the staleness test
`now − last_seen ≤ 2 × max(interval, 10)`, true at the boundary and false one
second past it. -/
theorem C1_online_threshold_check (now last_seen interval : Int) :
    (mark_online_state now last_seen interval = true ↔
      now - last_seen ≤ 2 * max interval 10) ∧
    mark_online_state (last_seen + 2 * max interval 10) last_seen interval = true ∧
    mark_online_state (last_seen + 2 * max interval 10 + 1) last_seen interval = false := by
  have hm : max interval (10:Int) = interval ∨ max interval (10:Int) = 10 := by
    rcases le_total interval 10 with h | h
    · right; exact max_eq_right h
    · left; exact max_eq_left h
  simp only [mark_online_state, REPORT_INTERVAL_DEFAULT, decide_eq_true_eq,
    decide_eq_false_iff_not]
  rcases hm with h | h <;> rw [h] <;>
    exact ⟨trivial, by omega, by omega⟩
/-- C7: the code's `cpu_pct` arithmetic equals the spec's formula, and the
synthetic snapshots (100, 80) then (200, 100) yield exactly 80.00. -/
theorem C7_cpu_pct_formula :
    (∀ t1 i1 t2 i2 : ℤ, cpu_pct_core t1 i1 t2 i2 = cpu_pct_specFormula t1 i1 t2 i2) ∧
    cpu_pct_core 100 80 200 100 = 80 := by
  refine ⟨fun t1 i1 t2 i2 => rfl, ?_⟩
  show ((round (((1 : ℚ) - ((100 - 80 : ℤ) : ℚ) / (((200 - 100 : ℤ) ⊔ 1 : ℤ) : ℚ)) * 100 * 100) : ℤ) : ℚ) / 100 = 80
  rw [show ((200 - 100 : ℤ) ⊔ 1 : ℤ) = 100 by norm_num]
  rw [show ((1 : ℚ) - ((100 - 80 : ℤ) : ℚ) / ((100 : ℤ) : ℚ)) * 100 * 100 = 8000 by norm_num]
  rw [show round (8000 : ℚ) = 8000 by norm_num [round_eq]]
  norm_num
/-- C8: for every nonnegative seconds value, `human_ago` formats exactly as
the spec's bucket table, and the spec's six example inputs produce the spec's
six example strings. -/
theorem C8_human_ago_buckets :
    (∀ s : Int, 0 ≤ s →
      human_ago s =
        if s < 60 then toString s ++ "s ago"
        else if s < 3600 then toString (s / 60) ++ "m ago"
        else if s < 86400 then
          toString (s / 3600) ++ "h " ++ toString (s / 60 % 60) ++ "m ago"
        else toString (s / 86400) ++ "d ago") ∧
    human_ago 0 = "0s ago" ∧ human_ago 59 = "59s ago" ∧ human_ago 60 = "1m ago" ∧
    human_ago 3600 = "1h 0m ago" ∧ human_ago 3661 = "1h 1m ago" ∧
    human_ago 86400 = "1d ago" := by
  refine ⟨?_, rfl, rfl, rfl, rfl, rfl, rfl⟩
  intro s hs
  have e1 : Int.fdiv s 60 = s / 60 := Int.fdiv_eq_ediv _ (by norm_num)
  have e2 : Int.fdiv (s / 60) 60 = s / 60 / 60 := Int.fdiv_eq_ediv _ (by norm_num)
  have e3 : Int.fdiv (s / 60 / 60) 24 = s / 60 / 60 / 24 := Int.fdiv_eq_ediv _ (by norm_num)
  simp only [human_ago, e1, e2, e3]
  by_cases h1 : s < 60
  · simp only [if_pos h1]
  · by_cases h2 : s < 3600
    · have h2' : s / 60 < 60 := by omega
      simp only [if_neg h1, if_pos h2', if_pos h2]
    · have h2' : ¬ (s / 60 < 60) := by omega
      by_cases h3 : s < 86400
      · have h3' : s / 60 / 60 < 24 := by omega
        simp only [if_neg h1, if_neg h2', if_pos h3', if_neg h2, if_pos h3,
          show Int.emod (s / 60) 60 = s / 60 % 60 from rfl]
        rw [show s / 60 / 60 = s / 3600 from by omega]
      · have h3' : ¬ (s / 60 / 60 < 24) := by omega
        simp only [if_neg h1, if_neg h2', if_neg h3', if_neg h2, if_neg h3]
        rw [show s / 60 / 60 / 24 = s / 86400 from by omega]
/-- Witness for C8: instantiates the bucket theorem at 3661. -/
theorem C8_human_ago_buckets_witness :
    (0 : Int) ≤ 3661 ∧ human_ago 3661 = "1h 1m ago" := by
  refine ⟨by norm_num, ?_⟩
  rw [C8_human_ago_buckets.1 3661 (by norm_num)]
  rfl

/-- C4: on a transport error the retry episode sends the same unmodified
payload after delays 2s, 4s, 8s, stopping at the first success; with the
initial send and the first two retries all failing, exactly 3 retries occur
in that delay order. -/
theorem C4_backoff_retry_schedule {α : Type} (p : α) (interval : Nat) (f : Nat → Bool) :
    (f 0 = true → cycle p interval .httpErr f =
      [.sample, .send p, .sleepFor 2, .send p]) ∧
    (f 0 = false → f 1 = true → cycle p interval .httpErr f =
      [.sample, .send p, .sleepFor 2, .send p, .sleepFor 4, .send p]) ∧
    (f 0 = false → f 1 = false → cycle p interval .httpErr f =
      [.sample, .send p, .sleepFor 2, .send p, .sleepFor 4, .send p,
       .sleepFor 8, .send p]) ∧
    (∀ q : α, AgentAct.send q ∈ cycle p interval .httpErr f → q = p) := by
  refine ⟨?_, ?_, ?_, ?_⟩
  · intro h0; simp [cycle, retryEpisode, h0]
  · intro h0 h1; simp [cycle, retryEpisode, h0, h1]
  · intro h0 h1
    cases h2 : f 2 <;> simp [cycle, retryEpisode, h0, h1, h2]
  · intro q hq
    cases h0 : f 0 <;> cases h1 : f 1 <;> cases h2 : f 2 <;>
      simp [cycle, retryEpisode, h0, h1, h2] at hq <;> tauto
/-- Witness for C4: a payload whose every retry fails yields exactly the
three-retry trace with delays 2, 4, 8. -/
theorem C4_backoff_retry_schedule_witness :
    cycle (0 : Nat) 10 .httpErr (fun _ => false) =
      [.sample, .send 0, .sleepFor 2, .send 0, .sleepFor 4, .send 0,
       .sleepFor 8, .send 0] :=
  (C4_backoff_retry_schedule 0 10 (fun _ => false)).2.2.1 rfl rfl

/-- C5 fails on the code: in a cycle whose initial send hits a transport
error and whose first retry succeeds, no interval-length sleep occurs after
the retry episode — the next cycle's sample follows the episode's last send
directly. -/
theorem C5_counterexample_no_interval_sleep :
    loopTrace 10 [((0 : Nat), .httpErr, fun _ => true), (0, .ok, fun _ => true)] =
      [.sample, .send 0, .sleepFor 2, .send 0, .sample, .send 0, .sleepFor 10] ∧
    AgentAct.sleepFor 10 ∉ cycle (0 : Nat) 10 .httpErr (fun _ => true) := by
  constructor
  · rfl
  · simp [cycle, retryEpisode]

/-- C5 amended: after a retry episode the Reporter proceeds directly to the
next SAMPLE — the episode's last action is its final send, immediately
followed by the next cycle's sample with no intervening sleep; the
full-interval sleep occurs only in cycles whose initial send succeeds or
fails with a non-transport error. -/
theorem C5_amended_no_sleep_after_retry {α : Type} (p q : α) (interval : Nat)
    (f g : Nat → Bool) (o2 : InitOutcome) (rest : List (α × InitOutcome × (Nat → Bool))) :
    (∃ pre post, loopTrace interval ((p, .httpErr, f) :: (q, o2, g) :: rest) =
      pre ++ AgentAct.send p :: AgentAct.sample :: post) ∧
    cycle p interval .ok f = [.sample, .send p, .sleepFor interval] ∧
    cycle p interval .otherErr f = [.sample, .send p, .sleepFor interval] := by
  refine ⟨?_, rfl, rfl⟩
  have hend : ∃ l, cycle p interval .httpErr f = l ++ [AgentAct.send p] := by
    cases h0 : f 0 with
    | true =>
      exact ⟨[.sample, .send p, .sleepFor 2], by simp [cycle, retryEpisode, h0]⟩
    | false =>
      cases h1 : f 1 with
      | true =>
        exact ⟨[.sample, .send p, .sleepFor 2, .send p, .sleepFor 4],
          by simp [cycle, retryEpisode, h0, h1]⟩
      | false =>
        cases h2 : f 2 with
        | true =>
          exact ⟨[.sample, .send p, .sleepFor 2, .send p, .sleepFor 4, .send p,
            .sleepFor 8], by simp [cycle, retryEpisode, h0, h1, h2]⟩
        | false =>
          exact ⟨[.sample, .send p, .sleepFor 2, .send p, .sleepFor 4, .send p,
            .sleepFor 8], by simp [cycle, retryEpisode, h0, h1, h2]⟩
  obtain ⟨l, hl⟩ := hend
  have hnext : ∃ tail, cycle q interval o2 g = AgentAct.sample :: tail :=
    ⟨_, rfl⟩
  obtain ⟨tail, htail⟩ := hnext
  refine ⟨l, tail ++ loopTrace interval rest, ?_⟩
  simp [loopTrace, hl, htail]
theorem hasKey_of_lookupKV {kvs : List (String × JVal)} {k : String} {v : JVal}
    (h : lookupKV kvs k = some v) : hasKey kvs k = true := by
  induction kvs with
  | nil => simp [lookupKV] at h
  | cons kv rest ih =>
    cases hpk : (kv.1 == k) with
    | true => simp [hasKey, hpk]
    | false =>
      rw [lookupKV, List.find?_cons_of_neg _ (by simp [hpk])] at h
      have hr := ih h
      show ((kv :: rest).any (fun q => q.1 == k)) = true
      rw [List.any_cons, hpk]
      simpa [hasKey] using hr

theorem checkKeys_jobj (ks : List String) (kvs : List (String × JVal)) :
    checkKeys ks (.jobj kvs) = .ok (ks.find? (fun k => ! hasKey kvs k)) := by
  induction ks with
  | nil => rfl
  | cons k rest ih =>
    show (if hasKey kvs k then checkKeys rest (.jobj kvs) else .ok (some k)) =
      .ok ((k :: rest).find? (fun k => ! hasKey kvs k))
    cases hk : hasKey kvs k with
    | true =>
      rw [if_pos rfl, ih, List.find?_cons_of_neg _ (by simp [hk])]
    | false =>
      rw [if_neg (by simp), List.find?_cons_of_pos _ (by simp [hk])]

theorem jIndex_jobj (kvs : List (String × JVal)) (k : String) :
    jIndex (.jobj kvs) k = ((lookupKV kvs k).map Except.ok).getD (.error ()) := by
  cases h : kvs.find? (fun kv => kv.1 == k) <;> simp [jIndex, lookupKV, h]

theorem jGetD_jobj (kvs : List (String × JVal)) (k : String) (d : JVal) :
    jGetD (.jobj kvs) k d = .ok ((lookupKV kvs k).getD d) := rfl

/-- C3: a dict payload missing any of the four required keys is rejected with
a 400 naming the (first) missing field, and the store is unchanged. -/
theorem C3_missing_key_rejected (store : Store) (kvs : List (String × JVal))
    (h : ∃ k ∈ requiredKeys, hasKey kvs k = false) :
    ∃ k, k ∈ requiredKeys ∧ hasKey kvs k = false ∧
      metricsSubmit store (.jobj kvs) =
        (.badRequest ("missing field: " ++ k), store) := by
  have hfind : ∃ k0, requiredKeys.find? (fun k => ! hasKey kvs k) = some k0 := by
    rcases h with ⟨k, hk, hfalse⟩
    have hsome : (requiredKeys.find? (fun k => ! hasKey kvs k)).isSome := by
      rw [List.find?_isSome]
      exact ⟨k, hk, by simp [hfalse]⟩
    exact Option.isSome_iff_exists.mp hsome
  rcases hfind with ⟨k0, hk0⟩
  have hmem := List.mem_of_find?_eq_some hk0
  have hprop := List.find?_some hk0
  refine ⟨k0, hmem, by simpa using hprop, ?_⟩
  unfold metricsSubmit
  rw [checkKeys_jobj, hk0]

/-- Witness for C3: the empty object payload is rejected naming
`device_id`, and an empty store stays empty. -/
theorem C3_missing_key_rejected_witness :
    ∃ k, k ∈ requiredKeys ∧ hasKey [] k = false ∧
      metricsSubmit [] (.jobj []) =
        (.badRequest ("missing field: " ++ k), []) :=
  C3_missing_key_rejected [] [] ⟨"device_id", by simp [requiredKeys], rfl⟩
theorem exceptBind_ok {α β : Type} (a : α) (f : α → Except Unit β) :
    (Except.ok (ε := Unit) a).bind f = f a := rfl

theorem metricsSubmit_ok_eq (store : Store) (kvs : List (String × JVal))
    (d tv : JVal) (t iv : Int)
    (hd : lookupKV kvs "device_id" = some d)
    (hts : lookupKV kvs "ts" = some tv)
    (htv : pyInt tv = .ok t)
    (hsys : hasKey kvs "system" = true)
    (hnet : hasKey kvs "network" = true)
    (hiv : pyInt ((lookupKV kvs "interval").getD (.jint REPORT_INTERVAL_DEFAULT)) = .ok iv) :
    metricsSubmit store (.jobj kvs) =
      (.ok, store.set (pyStr d) ⟨.jobj kvs, t, iv⟩) := by
  have hdk : hasKey kvs "device_id" = true := hasKey_of_lookupKV hd
  have htk : hasKey kvs "ts" = true := hasKey_of_lookupKV hts
  have hfind : requiredKeys.find? (fun k => ! hasKey kvs k) = none := by
    rw [List.find?_eq_none]
    intro k hk
    fin_cases hk <;> simp [hdk, htk, hsys, hnet]
  unfold metricsSubmit
  rw [checkKeys_jobj, hfind, jIndex_jobj, hd, jIndex_jobj, hts]
  show (match (Except.ok (ε := Unit) tv).bind pyInt with
    | Except.error _ => (SubmitResult.pyError, store)
    | Except.ok ts =>
      match (jGetD (.jobj kvs) "interval" (.jint REPORT_INTERVAL_DEFAULT)).bind pyInt with
      | Except.error _ => (SubmitResult.pyError, store)
      | Except.ok interval =>
        (SubmitResult.ok, store.set (pyStr d) ⟨.jobj kvs, ts, interval⟩)) = _
  rw [exceptBind_ok, htv, jGetD_jobj, exceptBind_ok, hiv]
/-- C2 fails as stated: this payload has all four required keys, yet `submit`
raises on the `int` coercion of its `ts` and stores nothing, so no subsequent
read can yield its data. -/
theorem C2_counterexample_bad_ts :
    metricsSubmit [] payloadBadTs = (.pyError, []) ∧
    Store.get [] (pyStr (.jint 1)) = none :=
  ⟨rfl, rfl⟩

/-- C2 amended: for every payload with the four required keys whose `ts` is
an integer (and whose `interval`, when present, is an integer), `submit`
stores the record under the string coercion of `device_id`, and a subsequent
read of that key yields `last_seen = ts` and `interval` equal to the
payload's value, or 10 when the key is absent. -/
theorem C2_submit_then_read (store : Store) (kvs : List (String × JVal))
    (d : JVal) (t : Int)
    (hd : lookupKV kvs "device_id" = some d)
    (hts : lookupKV kvs "ts" = some (.jint t))
    (hsys : hasKey kvs "system" = true)
    (hnet : hasKey kvs "network" = true) :
    (lookupKV kvs "interval" = none →
      metricsSubmit store (.jobj kvs) =
        (.ok, store.set (pyStr d) ⟨.jobj kvs, t, 10⟩) ∧
      (store.set (pyStr d) ⟨.jobj kvs, t, 10⟩).get (pyStr d) =
        some ⟨.jobj kvs, t, 10⟩) ∧
    (∀ i : Int, lookupKV kvs "interval" = some (.jint i) →
      metricsSubmit store (.jobj kvs) =
        (.ok, store.set (pyStr d) ⟨.jobj kvs, t, i⟩) ∧
      (store.set (pyStr d) ⟨.jobj kvs, t, i⟩).get (pyStr d) =
        some ⟨.jobj kvs, t, i⟩) := by
  constructor
  · intro hnone
    refine ⟨metricsSubmit_ok_eq store kvs d (.jint t) t 10 hd hts rfl hsys hnet ?_, Store.get_set _ _ _⟩
    rw [hnone]
    rfl
  · intro i hsome
    refine ⟨metricsSubmit_ok_eq store kvs d (.jint t) t i hd hts rfl hsys hnet ?_, Store.get_set _ _ _⟩
    rw [hsome]
    rfl

/-- Witness for C2 (amended): a concrete minimal payload without `interval`
is stored under `"7"` with `last_seen = 100` and the default interval 10. -/
theorem C2_submit_then_read_witness :
    metricsSubmit [] (.jobj kvsFull) =
      (.ok, Store.set [] (pyStr (.jint 7)) ⟨.jobj kvsFull, 100, 10⟩) ∧
    (Store.set [] (pyStr (.jint 7)) ⟨.jobj kvsFull, 100, 10⟩).get (pyStr (.jint 7)) =
      some ⟨.jobj kvsFull, 100, 10⟩ :=
  (C2_submit_then_read [] kvsFull (.jint 7) 100 rfl rfl rfl rfl).1 rfl
/-- C10: a payload with all four required keys whose `ts` (or `interval`,
when present) is not `int`-coercible makes `submit` fail before the store
assignment, leaving the store unchanged. -/
theorem C10_coercion_failure_keeps_store (store : Store) (kvs : List (String × JVal))
    (d : JVal)
    (hd : lookupKV kvs "device_id" = some d)
    (hsys : hasKey kvs "system" = true)
    (hnet : hasKey kvs "network" = true)
    (hbad : (∃ tv, lookupKV kvs "ts" = some tv ∧ pyInt tv = .error ()) ∨
            (∃ tv t, lookupKV kvs "ts" = some tv ∧ pyInt tv = .ok t ∧
              ∃ ivv, lookupKV kvs "interval" = some ivv ∧ pyInt ivv = .error ())) :
    metricsSubmit store (.jobj kvs) = (.pyError, store) := by
  have hdk : hasKey kvs "device_id" = true := hasKey_of_lookupKV hd
  rcases hbad with ⟨tv, hts, htv⟩ | ⟨tv, t, hts, htv, ivv, hiv, hivv⟩
  all_goals
    have htk : hasKey kvs "ts" = true := hasKey_of_lookupKV hts
    have hfind : requiredKeys.find? (fun k => ! hasKey kvs k) = none := by
      rw [List.find?_eq_none]
      intro k hk
      fin_cases hk <;> simp [hdk, htk, hsys, hnet]
    unfold metricsSubmit
    rw [checkKeys_jobj, hfind, jIndex_jobj, hd, jIndex_jobj, hts]
    show (match (Except.ok (ε := Unit) tv).bind pyInt with
      | Except.error _ => (SubmitResult.pyError, store)
      | Except.ok ts =>
        match (jGetD (.jobj kvs) "interval" (.jint REPORT_INTERVAL_DEFAULT)).bind pyInt with
        | Except.error _ => (SubmitResult.pyError, store)
        | Except.ok interval =>
          (SubmitResult.ok, store.set (pyStr d) ⟨.jobj kvs, ts, interval⟩)) = _
  · rw [exceptBind_ok, htv]
  · rw [exceptBind_ok, htv, jGetD_jobj, exceptBind_ok, hiv]
    show (match pyInt ivv with
      | Except.error _ => (SubmitResult.pyError, store)
      | Except.ok interval =>
        (SubmitResult.ok, store.set (pyStr d) ⟨.jobj kvs, t, interval⟩)) = _
    rw [hivv]

/-- Witness for C10: the concrete payload with `ts = "x"` leaves a one-record
store exactly as it was. -/
theorem C10_coercion_failure_keeps_store_witness :
    metricsSubmit storeD1 (.jobj [("device_id", .jint 1), ("ts", .jstr "x"),
        ("system", .jobj []), ("network", .jobj [])]) = (.pyError, storeD1) :=
  C10_coercion_failure_keeps_store storeD1 _ (.jint 1) rfl rfl rfl
    (.inl ⟨.jstr "x", rfl, rfl⟩)
/-- C6's "in particular" scenario fails on the code: re-submitting for `d1`
with a payload lacking the `network` key is rejected (missing field), the
prior record persists, and the flattened view still shows the old network
data rather than absent/empty fields. -/
theorem C6_counterexample_missing_network_rejected :
    metricsSubmit storeD1 payloadNoNet = (.badRequest "missing field: network", storeD1) ∧
    Store.get storeD1 "d1" = some ⟨payloadOld, 100, 10⟩ ∧
    (build_row 200 "d1" ⟨payloadOld, 100, 10⟩).map Row.iface = .ok (.jstr "eth0") ∧
    (build_row 200 "d1" ⟨payloadOld, 100, 10⟩).map Row.rx_bytes = .ok (.jint 1) :=
  ⟨rfl, rfl, rfl, rfl⟩

/-- C6 amended: every accepted submission fully replaces the prior record for
its device id with the new payload (no field-level merge), and re-submitting
with an *empty* `network` object yields a flattened view whose network fields
are all `None`; a payload entirely lacking the `network` key is instead
rejected, leaving the prior record in place. -/
theorem C6_full_replacement (store : Store) (payload : JVal)
    (h : (metricsSubmit store payload).1 = .ok) :
    (∃ did t iv, (metricsSubmit store payload).2 = store.set did ⟨payload, t, iv⟩ ∧
      ((metricsSubmit store payload).2).get did = some ⟨payload, t, iv⟩) ∧
    metricsSubmit storeD1 payloadEmptyNet =
      (.ok, Store.set storeD1 "d1" ⟨payloadEmptyNet, 200, 10⟩) ∧
    (build_row 200 "d1" ⟨payloadEmptyNet, 200, 10⟩).map
        (fun r => (r.iface, r.ip, r.mac, r.rx_bytes, r.tx_bytes, r.rx_packets, r.tx_packets)) =
      .ok (.jnull, .jnull, .jnull, .jnull, .jnull, .jnull, .jnull) := by
  refine ⟨?_, rfl, rfl⟩
  unfold metricsSubmit at h ⊢
  cases hck : checkKeys requiredKeys payload with
  | error e => rw [hck] at h; simp at h
  | ok o =>
    cases o with
    | some k => rw [hck] at h; simp at h
    | none =>
      cases hdid : jIndex payload "device_id" with
      | error e => rw [hck, hdid] at h; simp at h
      | ok didv =>
        cases hts : (jIndex payload "ts").bind pyInt with
        | error e => rw [hck, hdid, hts] at h; simp at h
        | ok t =>
          cases hivr : (jGetD payload "interval" (.jint REPORT_INTERVAL_DEFAULT)).bind pyInt with
          | error e => rw [hck, hdid, hts, hivr] at h; simp at h
          | ok iv =>
            exact ⟨pyStr didv, t, iv, rfl,
              Store.get_set store (pyStr didv) ⟨payload, t, iv⟩⟩

/-- Witness for C6 (amended): a concrete accepted submission into the empty
store replaces (here: creates) the record wholesale. -/
theorem C6_full_replacement_witness :
    (∃ did t iv, (metricsSubmit [] (.jobj kvsFull)).2 = Store.set [] did ⟨.jobj kvsFull, t, iv⟩ ∧
      ((metricsSubmit [] (.jobj kvsFull)).2).get did = some ⟨.jobj kvsFull, t, iv⟩) ∧
    metricsSubmit storeD1 payloadEmptyNet =
      (.ok, Store.set storeD1 "d1" ⟨payloadEmptyNet, 200, 10⟩) ∧
    (build_row 200 "d1" ⟨payloadEmptyNet, 200, 10⟩).map
        (fun r => (r.iface, r.ip, r.mac, r.rx_bytes, r.tx_bytes, r.rx_packets, r.tx_packets)) =
      .ok (.jnull, .jnull, .jnull, .jnull, .jnull, .jnull, .jnull) :=
  C6_full_replacement [] (.jobj kvsFull) rfl
/-- C9 fails as stated: `nic_stats` is not exception-wrapped, so a counter
file holding non-numeric content makes its `int(...)` raise into the caller. -/
theorem C9_counterexample_nic_stats_raises :
    nic_stats fsBad "eth0" = .error () := rfl

/-- C9 amended: `nic_stats` returns `(0,0,0,0)` for an empty interface and
never raises as long as every readable file's stripped content parses as an
integer (missing counter files default to `"0"`); `default_iface`, `ip_of`
and `mac_of` are embedded as total functions because every raising operation
in them sits inside a `try`/`except` in the source, so they cannot raise. -/
theorem C9_nic_stats_fail_soft (fs : FS) (iface : String)
    (hwf : ∀ path c, fs path = some c → ∃ n : Int, parseIntStr (pyStrip c) = .ok n) :
    (∃ v, nic_stats fs iface = .ok v) ∧ nic_stats fs "" = .ok (0, 0, 0, 0) := by
  refine ⟨?_, rfl⟩
  by_cases hif : iface = ""
  · exact ⟨(0, 0, 0, 0), by rw [hif]; rfl⟩
  · have hread : ∀ path, ∃ n : Int, parseIntStr (readFile fs path "0") = .ok n := by
      intro path
      cases hfp : fs path with
      | none => exact ⟨0, by rw [readFile, hfp]; rfl⟩
      | some c =>
        obtain ⟨n, hn⟩ := hwf path c hfp
        exact ⟨n, by rw [readFile, hfp]; exact hn⟩
    obtain ⟨rb, hrb⟩ := hread ("/sys/class/net/" ++ iface ++ "/statistics/" ++ "rx_bytes")
    obtain ⟨tb, htb⟩ := hread ("/sys/class/net/" ++ iface ++ "/statistics/" ++ "tx_bytes")
    obtain ⟨rp, hrp⟩ := hread ("/sys/class/net/" ++ iface ++ "/statistics/" ++ "rx_packets")
    obtain ⟨tp, htp⟩ := hread ("/sys/class/net/" ++ iface ++ "/statistics/" ++ "tx_packets")
    refine ⟨(rb, tb, rp, tp), ?_⟩
    rw [nic_stats, if_neg hif]
    show ((parseIntStr (readFile fs ("/sys/class/net/" ++ iface ++ "/statistics/" ++ "rx_bytes") "0")).bind
      fun rb => (parseIntStr (readFile fs ("/sys/class/net/" ++ iface ++ "/statistics/" ++ "tx_bytes") "0")).bind
      fun tb => (parseIntStr (readFile fs ("/sys/class/net/" ++ iface ++ "/statistics/" ++ "rx_packets") "0")).bind
      fun rp => (parseIntStr (readFile fs ("/sys/class/net/" ++ iface ++ "/statistics/" ++ "tx_packets") "0")).bind
      fun tp => Except.ok (rb, tb, rp, tp)) = Except.ok (rb, tb, rp, tp)
    rw [hrb, exceptBind_ok, htb, exceptBind_ok, hrp, exceptBind_ok, htp, exceptBind_ok]

/-- Witness for C9 (amended): a filesystem whose only readable counter file
holds `"5"` satisfies the well-formedness hypothesis. -/
theorem C9_nic_stats_fail_soft_witness :
    (∃ v, nic_stats fsGood "eth0" = .ok v) ∧ nic_stats fsGood "" = .ok (0, 0, 0, 0) := by
  refine C9_nic_stats_fail_soft fsGood "eth0" ?_
  intro path c h
  by_cases hp : path = "/sys/class/net/eth0/statistics/rx_bytes"
  · refine ⟨5, ?_⟩
    rw [show c = "5" from by simpa [fsGood, hp] using h.symm]
    rfl
  · exact absurd h (by simp [fsGood, hp])
